import Mathlib

/-!
Verification of the clothing try-on flow in `src/start.py`.

The only logic owned by the repository is the function `swap_clothing`:
input validation, temp-file staging, two uploads, prompt assembly, one
generation call, a walk over the response parts, and cleanup in a
`finally` block.  We embed it shallowly: external collaborators (the
genai client, the base64 decoder, the PIL image opener) are modelled as
an environment of result-returning functions, the filesystem is the list
of temp files currently existing, and network activity is an explicit
trace.  Temp-file names, random in the OS, are modelled by a fresh
counter.  Python exceptions become `Except PyErr`.  The source hardcodes
`api_key = ''` with a comment telling the operator to substitute a real
key; the key is therefore an environment field rather than a literal, so
that the paths behind the credential check remain expressible.
Captured warnings are modelled as absent (the warning list only decorates
the top-level error string).
-/

namespace VTO

/-- A decoded raster image: pixel dimensions plus a tag distinguishing
distinct image contents.  PIL images are out of scope; only identity and
dimensions matter to the claims. -/
structure Img where
  width : Nat
  height : Nat
  tag : Nat
deriving DecidableEq, Repr

/-- The `data` field of `part.inline_data`: either raw bytes or
base64-encoded text, mirroring the `isinstance(image_data, bytes)` test. -/
inductive InlineData where
  | raw (data : List Nat)
  | b64 (text : String)
deriving DecidableEq, Repr

/-- One response part: `part.text` and `part.inline_data` as in the
genai response object. -/
structure Part where
  text : Option String := none
  inline_data : Option InlineData := none
deriving DecidableEq, Repr

/-- The content of a candidate, holding the ordered parts. -/
structure Content where
  parts : List Part
deriving DecidableEq, Repr

/-- One candidate of the generation response. -/
structure Candidate where
  content : Option Content
deriving DecidableEq, Repr

/-- The generation response: its list of candidates. -/
structure Response where
  candidates : List Candidate
deriving DecidableEq, Repr

/-- A remote file reference returned by `client.files.upload`. -/
structure FileRef where
  uri : String
  mime_type : String
deriving DecidableEq, Repr

/-- A Python exception: `str(e)` and `type(e).__name__`. -/
structure PyErr where
  msg : String
  ty : String
deriving DecidableEq, Repr

/-- The environment: the credential and the outcomes of every external
call the flow can make.  `saveResult i` is the outcome of the i-th
`img.save` during staging and `uploadResult i` that of the i-th upload
(0 = person, 1 = clothing).  A save can raise (for example PIL refuses
to write an RGBA image to a `.jpg` name), and it does so after
`NamedTemporaryFile` has already created the file but before the name
is appended to `temp_files`. -/
structure Env where
  apiKey : String
  saveResult : Nat → Except PyErr Unit
  uploadResult : Nat → Except PyErr FileRef
  generateResult : Except PyErr Response
  b64decode : String → Except PyErr (List Nat)
  imgOpen : List Nat → Except PyErr Img

/-- Network operations, in the order the flow performs them. -/
inductive NetOp where
  | clientInit
  | upload (path : String)
  | generate (prompt : String)
  | deleteRemote (uri : String)
deriving DecidableEq, Repr

/-- What one call to `swap_clothing` produces: the returned pair, the
temp files still existing after the call, every temp file the call
created, and the network trace. -/
structure FlowResult where
  image : Option Img
  text : String
  fs : List String
  created : List String
  net : List NetOp
deriving DecidableEq, Repr

/-- Deterministic stand-in for `tempfile.NamedTemporaryFile` names. -/
def tempName (n : Nat) (ext : String) : String :=
  "/tmp/tmp" ++ Nat.repr n ++ ext

def jpgExt : String := ".jpg"

def pngExt : String := ".png"

/-- Models `os.unlink` guarded by `os.path.exists`. -/
def removeFile (fs : List String) (p : String) : List String :=
  fs.filter (fun f => f ≠ p)

/-- The `finally` loop deleting every staged temp file. -/
def runFinally (fs : List String) (temps : List String) : List String :=
  temps.foldl removeFile fs

/-- The top-level exception handler text:
`f"Error: \x7bstr(e)\x7d | Type: \x7btype(e).__name__\x7d"` (with no
captured warnings appended). -/
def errStr (e : PyErr) : String :=
  "Error: " ++ e.msg ++ " | Type: " ++ e.ty

/-! ## The prompt builder (lines 80-107 of start.py)

The f-string literal, split at the interpolation holes.  Whitespace is
exactly that of the triple-quoted Python source. -/

def promptHead : String :=
  "\n            Generate a photorealistic try-on result.\n\n            PERSON:\n            - Preserve identity (face, hair, skin tone, expression).\n            - Keep background, lighting, and pose unchanged.\n\n            CLOTHING FIT (match measurements below):\n            - Chest: "

def inchesLit : String := " inches"

def afterChest : String := "\n            - Waist: "

def afterWaist : String := "\n            - Hips: "

def afterHips : String := "\n            - Height: "

def afterHeight : String :=
  "\n\n            Ensure clothing scales naturally to fit these proportions.\n            Retain fabric folds, wrinkles, and texture.\n\n            REALISM REQUIREMENTS:\n            - No distortion, misaligned patterns, or artifacts.\n            - Match lighting & shadows from original photo.\n            - Colors should look natural in the scene.\n\n            OUTPUT MODE: "

def promptTail : String := "\n            "

/-- The extra clause appended when the mode is 3D. -/
def clause3D : String :=
  "\n                Render as a 3D-style model or mannequin, showing body depth and garment draping\n                in three dimensions. Maintain realism while giving a 3D perspective.\n                "

/-- The f-string of lines 80-102: the prompt before the conditional 3D
clause. -/
def promptBase (chest waist hips height : Nat) (output_mode : String) : String :=
  promptHead ++ Nat.repr chest ++ inchesLit
    ++ afterChest ++ Nat.repr waist ++ inchesLit
    ++ afterWaist ++ Nat.repr hips ++ inchesLit
    ++ afterHips ++ Nat.repr height ++ inchesLit
    ++ afterHeight ++ output_mode ++ promptTail

/-- The prompt `swap_clothing` builds from the measurements and the
output mode (the f-string, plus the conditional 3D clause). -/
def buildPrompt (chest waist hips height : Nat) (output_mode : String) : String :=
  if output_mode = "3D Model" then
    promptBase chest waist hips height output_mode ++ clause3D
  else
    promptBase chest waist hips height output_mode

/-! ## The response walk (lines 143-163) -/

/-- State threaded through the part loop: accumulated text, current
output image, the filesystem, the creation log, and the fresh-name
counter. -/
structure WalkState where
  text : String
  image : Option Img
  fs : List String
  created : List String
  ctr : Nat
deriving DecidableEq, Repr

/-- Reads `part.inline_data.data` and applies the
`isinstance(..., bytes)` test: raw bytes pass through, text goes through
`base64.b64decode`. -/
def inlineBytes (env : Env) : InlineData → Except PyErr (List Nat)
  | .raw b => .ok b
  | .b64 s => env.b64decode s

/-- The body of the `for part in candidate.content.parts` loop.  A text
part appends `part.text + "\n"`.  An inline part decodes to bytes, is
written to a fresh `.png` temp file, opened, and on success the file is
unlinked and the output image replaced; any failure appends an
`Error processing image:` line.  On an open failure the unlink on line
159 is skipped, so the temp file stays in `fs`. -/
def processPart (env : Env) (s : WalkState) (p : Part) : WalkState :=
  match p.text with
  | some t => { s with text := s.text ++ t ++ "\n" }
  | none =>
    match p.inline_data with
    | none => s
    | some d =>
      match inlineBytes env d with
      | .error e =>
        { s with text := s.text ++ "Error processing image: " ++ e.msg ++ "\n" }
      | .ok bytes =>
        let path := tempName s.ctr pngExt
        match env.imgOpen bytes with
        | .ok img =>
          { s with image := some img,
                   fs := removeFile (s.fs ++ [path]) path,
                   created := s.created ++ [path],
                   ctr := s.ctr + 1 }
        | .error e =>
          { s with text := s.text ++ "Error processing image: " ++ e.msg ++ "\n",
                   fs := s.fs ++ [path],
                   created := s.created ++ [path],
                   ctr := s.ctr + 1 }

/-- The whole part loop. -/
def processParts (env : Env) (s : WalkState) (ps : List Part) : WalkState :=
  ps.foldl (processPart env) s

/-- Fixed message used when the response carries no candidates. -/
def invalidRespMsg : String :=
  "The model did not generate a valid response. Try again."

def noImagesMsg : String := "Please upload both images."

def noKeyMsg : String :=
  "GEMINI_API_KEY not found. Please set it in your environment."

/-- The two staged temp files, in creation order (person, clothing). -/
def stagingFiles : List String := [tempName 0 jpgExt, tempName 1 jpgExt]

/-- Loop state when the response walk starts: both staged files exist,
nothing decoded yet, next fresh temp index 2. -/
def initialWalk : WalkState :=
  { text := "", image := none, fs := stagingFiles, created := stagingFiles, ctr := 2 }

/-- Lines 143-163: the demultiplexing of the response.  Only the first
candidate is inspected; an empty candidate list yields the fixed
message; a first candidate without content leaves the state untouched. -/
def walkResponse (env : Env) (resp : Response) : WalkState :=
  match resp.candidates with
  | [] => { initialWalk with text := invalidRespMsg }
  | cand :: _ =>
    match cand.content with
    | some content => processParts env initialWalk content.parts
    | none => initialWalk

/-- Shallow embedding of `swap_clothing` (lines 44-184 of start.py).
Every exit path runs the `finally` block, which unlinks exactly the
names in `temp_files` (guarded by an existence check) and attempts a
best-effort remote delete for each uploaded file reference.  The
staging loop of lines 69-72 creates each temp file, then saves into it,
and appends the name to `temp_files` only after the save succeeded: a
raising save therefore leaves a created `.jpg` file that the `finally`
loop never visits (temp_files holds only the files staged so far). -/
def swap_clothing (env : Env) (person_image clothing_image : Option Img)
    (chest waist hips height : Nat) (output_mode : String) : FlowResult :=
  match person_image, clothing_image with
  | none, _ =>
    { image := none, text := noImagesMsg, fs := [], created := [], net := [] }
  | some _, none =>
    { image := none, text := noImagesMsg, fs := [], created := [], net := [] }
  | some _, some _ =>
    if env.apiKey = "" then
      { image := none, text := noKeyMsg, fs := [], created := [], net := [] }
    else
      let t0 := tempName 0 jpgExt
      let t1 := tempName 1 jpgExt
      match env.saveResult 0 with
      | .error e =>
        { image := none, text := errStr e, fs := [t0], created := [t0],
          net := [.clientInit] }
      | .ok _ =>
      match env.saveResult 1 with
      | .error e =>
        { image := none, text := errStr e, fs := runFinally stagingFiles [t0],
          created := stagingFiles, net := [.clientInit] }
      | .ok _ =>
      match env.uploadResult 0 with
      | .error e =>
        { image := none, text := errStr e, fs := runFinally stagingFiles stagingFiles,
          created := stagingFiles, net := [.clientInit, .upload t0] }
      | .ok _ref0 =>
        match env.uploadResult 1 with
        | .error e =>
          { image := none, text := errStr e, fs := runFinally stagingFiles stagingFiles,
            created := stagingFiles, net := [.clientInit, .upload t0, .upload t1] }
        | .ok _ref1 =>
          let prompt := buildPrompt chest waist hips height output_mode
          match env.generateResult with
          | .error e =>
            { image := none, text := errStr e, fs := runFinally stagingFiles stagingFiles,
              created := stagingFiles,
              net := [.clientInit, .upload t0, .upload t1, .generate prompt,
                      .deleteRemote _ref0.uri, .deleteRemote _ref1.uri] }
          | .ok response =>
            let ws := walkResponse env response
            { image := ws.image, text := ws.text,
              fs := runFinally ws.fs stagingFiles, created := ws.created,
              net := [.clientInit, .upload t0, .upload t1, .generate prompt,
                      .deleteRemote _ref0.uri, .deleteRemote _ref1.uri] }

/-! ## String containment -/

/-- Substring containment: the character list of `t` occurs contiguously
inside the character list of `s`. -/
def strContains (s t : String) : Prop := t.data <:+: s.data

instance (s t : String) : Decidable (strContains s t) :=
  inferInstanceAs (Decidable (t.data <:+: s.data))

theorem strContains_of_eq (s t : String) (a b : List Char)
    (h : s.data = a ++ t.data ++ b) : strContains s t := ⟨a, b, h.symm⟩

/-! ## Decimal digits of Nat.repr -/

def digitChars : List Char := ("0123456789").data

theorem digitChar_mem_digits (m : Nat) (h : m < 10) :
    Nat.digitChar m ∈ digitChars := by
  interval_cases m <;> decide

theorem toDigitsCore_mem_digits (fuel : Nat) : ∀ (n : Nat) (acc : List Char),
    (∀ c ∈ acc, c ∈ digitChars) →
    ∀ c ∈ Nat.toDigitsCore 10 fuel n acc, c ∈ digitChars := by
  induction fuel with
  | zero =>
    intro n acc hacc c hc
    exact hacc c hc
  | succ f ih =>
    intro n acc hacc c hc
    rw [Nat.toDigitsCore] at hc
    by_cases hz : n / 10 = 0
    · simp only [hz, if_pos] at hc
      rcases List.mem_cons.1 hc with h1 | h2
      · exact h1 ▸ digitChar_mem_digits _ (Nat.mod_lt _ (by norm_num))
      · exact hacc c h2
    · simp only [hz, if_neg, if_false] at hc
      refine ih (n / 10) (Nat.digitChar (n % 10) :: acc) ?_ c hc
      intro x hx
      rcases List.mem_cons.1 hx with h1 | h2
      · exact h1 ▸ digitChar_mem_digits _ (Nat.mod_lt _ (by norm_num))
      · exact hacc x h2

theorem repr_mem_digits (n : Nat) : ∀ c ∈ (Nat.repr n).data, c ∈ digitChars := by
  intro c hc
  exact toDigitsCore_mem_digits (n + 1) n [] (by intro x hx; cases hx) c hc

/-! ## Filesystem lemmas -/

theorem mem_removeFile (fs : List String) (p f : String) :
    f ∈ removeFile fs p ↔ f ∈ fs ∧ f ≠ p := by
  simp [removeFile]

theorem mem_runFinally_two (fs : List String) (a b f : String) :
    f ∈ runFinally fs [a, b] ↔ f ∈ fs ∧ f ≠ a ∧ f ≠ b := by
  simp only [runFinally, List.foldl_cons, List.foldl_nil, removeFile,
    List.mem_filter, decide_eq_true_eq, ne_eq]
  tauto

theorem staging_cleanup : runFinally stagingFiles stagingFiles = [] := by
  decide

/-- A png temp file never collides with either staged jpg file: the
character n occurs in the png name but not in a staging name, whose
variable piece is all decimal digits. -/
theorem tempName_png_ne_staging (k m : Nat) :
    tempName k pngExt ≠ tempName m jpgExt := by
  intro h
  have hd := congrArg String.data h
  simp only [tempName, pngExt, jpgExt, String.data_append] at hd
  have hn : ('n') ∈ ("/tmp/tmp").data ++ (Nat.repr k).data ++ (".png").data := by
    refine List.mem_append.2 (Or.inr ?_)
    decide
  rw [hd] at hn
  rcases List.mem_append.1 hn with hn1 | hn2
  · rcases List.mem_append.1 hn1 with hn3 | hn4
    · exact absurd hn3 (by decide)
    · have := repr_mem_digits m ('n') hn4
      exact absurd this (by decide)
  · exact absurd hn2 (by decide)

/-! ## Walk lemmas -/

theorem processParts_nil (env : Env) (s : WalkState) :
    processParts env s [] = s := rfl

theorem processParts_cons (env : Env) (s : WalkState) (p : Part) (ps : List Part) :
    processParts env s (p :: ps) = processParts env (processPart env s p) ps := rfl

/-- Any file present after one loop step was already present or is a
fresh png temp file. -/
theorem processPart_fs_sub (env : Env) (s : WalkState) (p : Part) :
    ∀ f ∈ (processPart env s p).fs, f ∈ s.fs ∨ ∃ k, f = tempName k pngExt := by
  intro f hf
  cases hpt : p.text with
  | some t => simp only [processPart, hpt] at hf; exact Or.inl hf
  | none =>
    cases hpd : p.inline_data with
    | none => simp only [processPart, hpt, hpd] at hf; exact Or.inl hf
    | some d =>
      cases hib : inlineBytes env d with
      | error e => simp only [processPart, hpt, hpd, hib] at hf; exact Or.inl hf
      | ok bytes =>
        cases hio : env.imgOpen bytes with
        | ok img =>
          simp only [processPart, hpt, hpd, hib, hio] at hf
          rcases (mem_removeFile _ _ _).1 hf with ⟨hmem, _⟩
          rcases List.mem_append.1 hmem with h1 | h2
          · exact Or.inl h1
          · exact Or.inr ⟨s.ctr, List.mem_singleton.1 h2⟩
        | error e =>
          simp only [processPart, hpt, hpd, hib, hio] at hf
          rcases List.mem_append.1 hf with h1 | h2
          · exact Or.inl h1
          · exact Or.inr ⟨s.ctr, List.mem_singleton.1 h2⟩

theorem processParts_fs_sub (env : Env) (ps : List Part) :
    ∀ (s : WalkState), ∀ f ∈ (processParts env s ps).fs,
      f ∈ s.fs ∨ ∃ k, f = tempName k pngExt := by
  induction ps with
  | nil => intro s f hf; exact Or.inl hf
  | cons p ps ih =>
    intro s f hf
    rw [processParts_cons] at hf
    rcases ih (processPart env s p) f hf with h1 | h2
    · exact processPart_fs_sub env s p f h1
    · exact Or.inr h2

/-- Cleanness of one part: whenever the part is an inline payload whose
byte extraction succeeds, opening the bytes succeeds too. -/
def cleanPart (env : Env) (p : Part) : Prop :=
  p.text = none → ∀ d, p.inline_data = some d →
    ∀ b, inlineBytes env d = Except.ok b → ∃ i, env.imgOpen b = Except.ok i

theorem processPart_fs_clean (env : Env) (s : WalkState) (p : Part)
    (hp : cleanPart env p) (hfresh : tempName s.ctr pngExt ∉ s.fs) :
    (processPart env s p).fs = s.fs ∧ s.ctr ≤ (processPart env s p).ctr := by
  cases hpt : p.text with
  | some t => exact ⟨by simp [processPart, hpt], by simp [processPart, hpt]⟩
  | none =>
    cases hpd : p.inline_data with
    | none => exact ⟨by simp [processPart, hpt, hpd], by simp [processPart, hpt, hpd]⟩
    | some d =>
      cases hib : inlineBytes env d with
      | error e =>
        exact ⟨by simp [processPart, hpt, hpd, hib], by simp [processPart, hpt, hpd, hib]⟩
      | ok bytes =>
        rcases hp hpt d hpd bytes hib with ⟨i, hio⟩
        simp only [processPart, hpt, hpd, hib, hio]
        constructor
        · rw [removeFile, List.filter_append]
          have h2 : List.filter (fun f => decide (f ≠ tempName s.ctr pngExt))
              [tempName s.ctr pngExt] = [] := by simp
          have h1 : List.filter (fun f => decide (f ≠ tempName s.ctr pngExt)) s.fs
              = s.fs := by
            refine List.filter_eq_self.mpr ?_
            intro a ha
            exact decide_eq_true (fun heq => hfresh (heq ▸ ha))
          rw [h1, h2, List.append_nil]
        · exact Nat.le_succ _

theorem processParts_fs_clean (env : Env) (ps : List Part) :
    ∀ (s : WalkState), (∀ p ∈ ps, cleanPart env p) →
      (∀ k, s.ctr ≤ k → tempName k pngExt ∉ s.fs) →
      (processParts env s ps).fs = s.fs := by
  induction ps with
  | nil => intro s _ _; rfl
  | cons p ps ih =>
    intro s hclean hfresh
    rw [processParts_cons]
    have hstep := processPart_fs_clean env s p (hclean p (List.mem_cons_self p ps))
      (hfresh s.ctr (le_refl _))
    have htail := ih (processPart env s p)
      (fun q hq => hclean q (List.mem_cons_of_mem p hq))
      (fun k hk => by
        rw [hstep.1]
        exact hfresh k (le_trans hstep.2 hk))
    rw [htail, hstep.1]

/-! ## Image selection -/

/-- The image one part contributes: `some i` exactly when the part is an
inline payload that decodes to bytes and opens successfully. -/
def partImage (env : Env) (p : Part) : Option Img :=
  match p.text with
  | some _ => none
  | none =>
    match p.inline_data with
    | none => none
    | some d =>
      match inlineBytes env d with
      | .error _ => none
      | .ok b =>
        match env.imgOpen b with
        | .ok i => some i
        | .error _ => none

theorem processPart_image (env : Env) (s : WalkState) (p : Part) :
    (processPart env s p).image = (partImage env p).elim s.image some := by
  cases hpt : p.text with
  | some t => simp only [processPart, partImage, hpt]; rfl
  | none =>
    cases hpd : p.inline_data with
    | none => simp only [processPart, partImage, hpt, hpd]; rfl
    | some d =>
      cases hib : inlineBytes env d with
      | error e => simp only [processPart, partImage, hpt, hpd, hib]; rfl
      | ok bytes =>
        cases hio : env.imgOpen bytes with
        | ok img => simp only [processPart, partImage, hpt, hpd, hib, hio]; rfl
        | error e => simp only [processPart, partImage, hpt, hpd, hib, hio]; rfl

/-- Image selected by a walk over `ps`, written the way the amended
claim C3 reads: the last part that decodes successfully wins; parts that
fail to decode leave the previous selection in place. -/
def lastDecodedImage (env : Env) (ps : List Part) : Option Img :=
  ps.foldl (fun acc p => (partImage env p).elim acc some) none

theorem processParts_image (env : Env) (ps : List Part) :
    ∀ (s : WalkState), (processParts env s ps).image =
      ps.foldl (fun acc p => (partImage env p).elim acc some) s.image := by
  induction ps with
  | nil => intro s; rfl
  | cons p ps ih =>
    intro s
    rw [processParts_cons, List.foldl_cons, ih, processPart_image]

/-! ## Unfolding swap_clothing past a successful setup -/

theorem swap_clothing_gen (env : Env) (pi ci : Img) (ch w hp ht : Nat)
    (mode : String) (r0 r1 : FileRef) (resp : Response)
    (hk : ¬env.apiKey = "")
    (hs0 : env.saveResult 0 = Except.ok ())
    (hs1 : env.saveResult 1 = Except.ok ())
    (h0 : env.uploadResult 0 = Except.ok r0)
    (h1 : env.uploadResult 1 = Except.ok r1)
    (hg : env.generateResult = Except.ok resp) :
    swap_clothing env (some pi) (some ci) ch w hp ht mode =
      { image := (walkResponse env resp).image,
        text := (walkResponse env resp).text,
        fs := runFinally (walkResponse env resp).fs stagingFiles,
        created := (walkResponse env resp).created,
        net := [.clientInit, .upload (tempName 0 jpgExt), .upload (tempName 1 jpgExt),
                .generate (buildPrompt ch w hp ht mode),
                .deleteRemote r0.uri, .deleteRemote r1.uri] } := by
  simp only [swap_clothing, hs0, hs1, h0, h1, hg, if_neg hk]

/-- Cleanness of an environment: every inline payload of the first
candidate of its generation response opens successfully once its bytes
are extracted. -/
def cleanResponse (env : Env) : Prop :=
  ∀ resp, env.generateResult = Except.ok resp →
    ∀ cand, resp.candidates.head? = some cand →
      ∀ content, cand.content = some content →
        ∀ p ∈ content.parts, cleanPart env p

theorem fresh_not_staging (k : Nat) :
    tempName k pngExt ∉ stagingFiles := by
  intro hmem
  rcases List.mem_cons.1 hmem with h0 | h1
  · exact tempName_png_ne_staging k 0 h0
  · rcases List.mem_singleton.1 (by exact h1) with h2
    exact tempName_png_ne_staging k 1 h2

theorem walkResponse_fs_sub (env : Env) (resp : Response) :
    ∀ f ∈ (walkResponse env resp).fs,
      f ∈ stagingFiles ∨ ∃ k, f = tempName k pngExt := by
  obtain ⟨cands⟩ := resp
  cases cands with
  | nil => intro f hf; exact Or.inl hf
  | cons cand rest =>
    obtain ⟨oc⟩ := cand
    cases oc with
    | none => intro f hf; exact Or.inl hf
    | some content =>
      intro f hf
      exact processParts_fs_sub env content.parts initialWalk f hf

theorem walkResponse_fs_clean (env : Env) (resp : Response)
    (hg : env.generateResult = Except.ok resp) (hclean : cleanResponse env) :
    (walkResponse env resp).fs = stagingFiles := by
  obtain ⟨cands⟩ := resp
  cases cands with
  | nil => rfl
  | cons cand rest =>
    obtain ⟨oc⟩ := cand
    cases oc with
    | none => rfl
    | some content =>
      refine processParts_fs_clean env content.parts initialWalk ?_ ?_
      · exact hclean ⟨⟨some content⟩ :: rest⟩ hg ⟨some content⟩ rfl content rfl
      · intro k _hk
        exact fresh_not_staging k

/-- Every exit path of `swap_clothing` either leaves no temp file at
all, leaks exactly the staging file whose save raised, or went through
the response walk. -/
theorem swap_clothing_fs_cases (env : Env) (person clothing : Option Img)
    (ch w hp ht : Nat) (mode : String) :
    (swap_clothing env person clothing ch w hp ht mode).fs = [] ∨
    (∃ e, env.saveResult 0 = Except.error e ∧
      (swap_clothing env person clothing ch w hp ht mode).fs = [tempName 0 jpgExt]) ∨
    (∃ e, env.saveResult 1 = Except.error e ∧
      (swap_clothing env person clothing ch w hp ht mode).fs = [tempName 1 jpgExt]) ∨
    (∃ resp, env.generateResult = Except.ok resp ∧
      (swap_clothing env person clothing ch w hp ht mode).fs =
        runFinally (walkResponse env resp).fs stagingFiles) := by
  cases person with
  | none => exact Or.inl (by cases clothing <;> rfl)
  | some pi =>
    cases clothing with
    | none => exact Or.inl rfl
    | some ci =>
      by_cases hk : env.apiKey = ""
      · exact Or.inl (by simp [swap_clothing, if_pos hk])
      · cases hs0 : env.saveResult 0 with
        | error e =>
          refine Or.inr (Or.inl ⟨e, rfl, ?_⟩)
          simp only [swap_clothing, if_neg hk, hs0]
        | ok u0 =>
          cases hs1 : env.saveResult 1 with
          | error e =>
            refine Or.inr (Or.inr (Or.inl ⟨e, rfl, ?_⟩))
            simp only [swap_clothing, if_neg hk, hs0, hs1]
            decide
          | ok u1 =>
            cases h0 : env.uploadResult 0 with
            | error e =>
              refine Or.inl ?_
              simp only [swap_clothing, if_neg hk, hs0, hs1, h0]
              exact staging_cleanup
            | ok r0 =>
              cases h1 : env.uploadResult 1 with
              | error e =>
                refine Or.inl ?_
                simp only [swap_clothing, if_neg hk, hs0, hs1, h0, h1]
                exact staging_cleanup
              | ok r1 =>
                cases hg : env.generateResult with
                | error e =>
                  refine Or.inl ?_
                  simp only [swap_clothing, if_neg hk, hs0, hs1, h0, h1, hg]
                  exact staging_cleanup
                | ok resp =>
                  refine Or.inr (Or.inr (Or.inr ⟨resp, rfl, ?_⟩))
                  simp only [swap_clothing, if_neg hk, hs0, hs1, h0, h1, hg]

/-! ## Concrete fixtures -/

def imgA : Img := ⟨100, 200, 1⟩

def imgB : Img := ⟨50, 60, 2⟩

def imgP : Img := ⟨640, 480, 3⟩

def imgC : Img := ⟨300, 400, 4⟩

def refP : FileRef := ⟨("files/person"), ("image/jpeg")⟩

def refC : FileRef := ⟨("files/clothing"), ("image/jpeg")⟩

def errOpen : PyErr := ⟨("cannot identify image file"), ("UnidentifiedImageError")⟩

def errB64 : PyErr := ⟨("Invalid base64-encoded string"), ("Error")⟩

/-- A happy-path environment: key set, both saves and both uploads
succeed, the response is empty; bytes `[1]` open as `imgA`, bytes `[2]`
as `imgB`, anything else fails to open; the text `"AQ=="`
base64-decodes to `[1]`. -/
def envBase : Env :=
  { apiKey := ("key-123"),
    saveResult := fun _ => .ok (),
    uploadResult := fun i => if i = 0 then .ok refP else .ok refC,
    generateResult := .ok ⟨[]⟩,
    b64decode := fun s => if s = ("AQ==") then .ok [1] else .error errB64,
    imgOpen := fun b =>
      if b = [1] then .ok imgA else if b = [2] then .ok imgB else .error errOpen }

/-- Response with a single candidate holding one inline payload of
bytes `[9]`, which envBase fails to open. -/
def respLeak : Response := ⟨[⟨some ⟨[{ inline_data := some (.raw [9]) }]⟩⟩]⟩

/-- Environment whose response carries one inline payload that fails to
open. -/
def envLeak : Env := { envBase with generateResult := Except.ok respLeak }

def envEmptyKey : Env := { envBase with apiKey := "" }

/-- The exception PIL raises when saving an RGBA-mode upload under a
`.jpg` name (the UI accepts png uploads, so this save path is
reachable). -/
def errSave : PyErr := ⟨("cannot write mode RGBA as JPEG"), ("OSError")⟩

/-- Environment in which the first staging save (the person image)
raises and everything else succeeds. -/
def envSaveFail : Env :=
  { envBase with saveResult := fun i => if i = 0 then .error errSave else .ok () }

/-- Both staging saves succeed. -/
def cleanSaves (env : Env) : Prop :=
  env.saveResult 0 = Except.ok () ∧ env.saveResult 1 = Except.ok ()

/-! ## Claims -/

/-- C1 counterexample: with both images present, a valid key, successful
uploads, and a response whose single inline payload fails to open, the
temp file written for that payload is never unlinked, so a temporary
file created by the execution remains after the call returns.  This
refutes the claim that no temporary local file ever remains. -/
theorem c1_counterexample :
    (swap_clothing envLeak (some imgP) (some imgC) 38 32 40 68 ("2D Image")).fs ≠ [] := by
  decide

/-- C1 (amended): every temporary file that remains after a call is
either the staging jpg of a save that raised (the name is appended to
temp_files only after the save, so the finally loop misses it) or the
png decode temp of an inline payload whose open raised (the unlink of
line 159 is skipped); when both saves succeed and every inline payload
of the first candidate opens successfully, no temporary file at all
remains; and on a reachable input a raising save does leave exactly the
corresponding staging file behind. -/
theorem c1_temp_cleanup (env : Env) (person clothing : Option Img)
    (ch w hp ht : Nat) (mode : String) :
    (∀ f ∈ (swap_clothing env person clothing ch w hp ht mode).fs,
        (∃ e, env.saveResult 0 = Except.error e ∧ f = tempName 0 jpgExt)
        ∨ (∃ e, env.saveResult 1 = Except.error e ∧ f = tempName 1 jpgExt)
        ∨ (∃ k, f = tempName k pngExt))
    ∧ (cleanSaves env → cleanResponse env →
        (swap_clothing env person clothing ch w hp ht mode).fs = [])
    ∧ (∀ (pi ci : Img) (e : PyErr), ¬env.apiKey = "" →
        (env.saveResult 0 = Except.error e →
          (swap_clothing env (some pi) (some ci) ch w hp ht mode).fs
            = [tempName 0 jpgExt])
        ∧ (env.saveResult 0 = Except.ok () → env.saveResult 1 = Except.error e →
          (swap_clothing env (some pi) (some ci) ch w hp ht mode).fs
            = [tempName 1 jpgExt])) := by
  refine ⟨?_, ?_, ?_⟩
  · intro f hf
    rcases swap_clothing_fs_cases env person clothing ch w hp ht mode with
      h | ⟨e, hs, h⟩ | ⟨e, hs, h⟩ | ⟨resp, hg, h⟩
    · rw [h] at hf
      exact absurd hf (List.not_mem_nil f)
    · rw [h] at hf
      exact Or.inl ⟨e, hs, List.mem_singleton.1 hf⟩
    · rw [h] at hf
      exact Or.inr (Or.inl ⟨e, hs, List.mem_singleton.1 hf⟩)
    · rw [h] at hf
      rcases (mem_runFinally_two (walkResponse env resp).fs (tempName 0 jpgExt)
          (tempName 1 jpgExt) f).1 hf with ⟨hmem, hne0, hne1⟩
      rcases walkResponse_fs_sub env resp f hmem with hstag | hpng
      · rcases List.mem_cons.1 hstag with h0 | h1
        · exact absurd h0 hne0
        · exact absurd (List.mem_singleton.1 h1) hne1
      · exact Or.inr (Or.inr hpng)
  · intro hsaves hclean
    rcases swap_clothing_fs_cases env person clothing ch w hp ht mode with
      h | ⟨e, hs, h⟩ | ⟨e, hs, h⟩ | ⟨resp, hg, h⟩
    · exact h
    · rw [hsaves.1] at hs
      exact Except.noConfusion hs
    · rw [hsaves.2] at hs
      exact Except.noConfusion hs
    · rw [h, walkResponse_fs_clean env resp hg hclean]
      exact staging_cleanup
  · intro pi ci e hk
    constructor
    · intro hs
      simp only [swap_clothing, if_neg hk, hs]
    · intro hs0 hs1
      simp only [swap_clothing, if_neg hk, hs0, hs1]
      decide

/-- C1 witness: at a concrete clean environment no temp file remains,
and at a concrete environment whose person save raises, exactly the
first staging file remains. -/
theorem c1_temp_cleanup_witness :
    (swap_clothing envBase (some imgP) (some imgC) 38 32 40 68 ("2D Image")).fs = []
    ∧ (swap_clothing envSaveFail (some imgP) (some imgC) 38 32 40 68 ("2D Image")).fs
        = [tempName 0 jpgExt] :=
  ⟨(c1_temp_cleanup envBase (some imgP) (some imgC) 38 32 40 68 ("2D Image")).2.1
      ⟨rfl, rfl⟩
      (by
        intro resp hg cand hc
        injection hg with h
        subst h
        simp at hc),
    ((c1_temp_cleanup envSaveFail (some imgP) (some imgC) 38 32 40 68 ("2D Image")).2.2
      imgP imgC errSave (by decide)).1 rfl⟩

/-- C6: if either input image is absent, swap_clothing returns no image
and exactly the text of noImagesMsg, creating no temporary file and
performing no network operation (no client construction, upload, or
generation call). -/
theorem c6_missing_inputs (env : Env) (person clothing : Option Img)
    (ch w hp ht : Nat) (mode : String) (h : person = none ∨ clothing = none) :
    swap_clothing env person clothing ch w hp ht mode =
      { image := none, text := noImagesMsg, fs := [], created := [], net := [] } := by
  rcases h with rfl | rfl
  · cases clothing <;> rfl
  · cases person <;> rfl

/-- C6 witness: concrete call with a missing person image. -/
theorem c6_missing_inputs_witness :
    swap_clothing envBase none (some imgC) 38 32 40 68 ("2D Image") =
      { image := none, text := noImagesMsg, fs := [], created := [], net := [] } :=
  c6_missing_inputs envBase none (some imgC) 38 32 40 68 ("2D Image") (Or.inl rfl)

/-- C7: with both images present but an empty credential, swap_clothing
returns no image and the credential-missing message, creating no
temporary file and performing no network operation. -/
theorem c7_missing_key (env : Env) (pi ci : Img) (ch w hp ht : Nat)
    (mode : String) (hk : env.apiKey = "") :
    swap_clothing env (some pi) (some ci) ch w hp ht mode =
      { image := none, text := noKeyMsg, fs := [], created := [], net := [] } := by
  simp only [swap_clothing, if_pos hk]

/-- C7 witness: concrete call with the empty key the source hardcodes. -/
theorem c7_missing_key_witness :
    swap_clothing envEmptyKey (some imgP) (some imgC) 38 32 40 68 ("2D Image") =
      { image := none, text := noKeyMsg, fs := [], created := [], net := [] } :=
  c7_missing_key envEmptyKey imgP imgC 38 32 40 68 ("2D Image") rfl

/-- Response whose first (and only) candidate has no content. -/
def respNoContent : Response := ⟨[⟨none⟩]⟩

def envNoContent : Env := { envBase with generateResult := Except.ok respNoContent }

/-- C2 counterexample: with a response whose first candidate has no
content, swap_clothing returns the empty string, not the fixed
invalid-response message, refuting the claim for the no-content case. -/
theorem c2_counterexample :
    (swap_clothing envNoContent (some imgP) (some imgC) 38 32 40 68 ("2D Image")).text = ""
    ∧ ("" : String) ≠ invalidRespMsg :=
  ⟨rfl, by decide⟩

/-- C2 (amended): when the setup succeeds and the response has no
candidates, the call returns no image and the fixed invalid-response
message; when the first candidate exists but has no content, the call
returns no image and the EMPTY text (the fixed message is not produced
on that path). -/
theorem c2_empty_response (env : Env) (pi ci : Img) (ch w hp ht : Nat)
    (mode : String) (r0 r1 : FileRef) (resp : Response)
    (hk : ¬env.apiKey = "")
    (hs0 : env.saveResult 0 = Except.ok ())
    (hs1 : env.saveResult 1 = Except.ok ())
    (h0 : env.uploadResult 0 = Except.ok r0)
    (h1 : env.uploadResult 1 = Except.ok r1)
    (hg : env.generateResult = Except.ok resp) :
    (resp.candidates = [] →
      (swap_clothing env (some pi) (some ci) ch w hp ht mode).image = none ∧
      (swap_clothing env (some pi) (some ci) ch w hp ht mode).text = invalidRespMsg)
    ∧ (∀ cand rest, resp.candidates = cand :: rest → cand.content = none →
      (swap_clothing env (some pi) (some ci) ch w hp ht mode).image = none ∧
      (swap_clothing env (some pi) (some ci) ch w hp ht mode).text = "") := by
  rw [swap_clothing_gen env pi ci ch w hp ht mode r0 r1 resp hk hs0 hs1 h0 h1 hg]
  constructor
  · intro hc
    simp [walkResponse, initialWalk, hc]
  · intro cand rest hc hcc
    simp [walkResponse, initialWalk, hc, hcc]

/-- C2 witness: the no-candidate branch at a concrete environment. -/
theorem c2_empty_response_witness :
    (swap_clothing envBase (some imgP) (some imgC) 38 32 40 68 ("2D Image")).image = none ∧
    (swap_clothing envBase (some imgP) (some imgC) 38 32 40 68 ("2D Image")).text = invalidRespMsg :=
  (c2_empty_response envBase imgP imgC 38 32 40 68 ("2D Image") refP refC ⟨[]⟩
    (by decide) rfl rfl rfl rfl rfl).1 rfl

/-- Content with two inline payloads, bytes `[1]` then bytes `[2]`. -/
def contentTwo : Content :=
  ⟨[{ inline_data := some (.raw [1]) }, { inline_data := some (.raw [2]) }]⟩

def respTwo : Response := ⟨[⟨some contentTwo⟩]⟩

def envTwo : Env := { envBase with generateResult := Except.ok respTwo }

/-- C3 counterexample: two inline payloads both decode successfully
(bytes `[1]` to imgA, then bytes `[2]` to imgB); the returned image is
imgB, decoded from the SECOND payload, not from the first one as the
claim states. -/
theorem c3_counterexample :
    (swap_clothing envTwo (some imgP) (some imgC) 38 32 40 68 ("2D Image")).image = some imgB
    ∧ envTwo.imgOpen [1] = Except.ok imgA
    ∧ imgB ≠ imgA :=
  ⟨by decide, rfl, by decide⟩

/-- C3 (amended): the image returned is the one decoded from the LAST
inline payload of the first candidate that decodes successfully (none
when none does), and a payload is accepted as raw bytes or as
base64-encoded text: a base64 text whose decode yields bytes b
contributes exactly as the raw bytes b do. -/
theorem c3_last_image (env : Env) (pi ci : Img) (ch w hp ht : Nat)
    (mode : String) (r0 r1 : FileRef) (resp : Response) (cand : Candidate)
    (rest : List Candidate) (content : Content)
    (hk : ¬env.apiKey = "")
    (hs0 : env.saveResult 0 = Except.ok ())
    (hs1 : env.saveResult 1 = Except.ok ())
    (h0 : env.uploadResult 0 = Except.ok r0)
    (h1 : env.uploadResult 1 = Except.ok r1)
    (hg : env.generateResult = Except.ok resp)
    (hc : resp.candidates = cand :: rest)
    (hcc : cand.content = some content) :
    (swap_clothing env (some pi) (some ci) ch w hp ht mode).image =
      lastDecodedImage env content.parts
    ∧ (∀ (s : String) (b : List Nat), env.b64decode s = Except.ok b →
        partImage env { text := none, inline_data := some (.b64 s) } =
        partImage env { text := none, inline_data := some (.raw b) }) := by
  constructor
  · rw [swap_clothing_gen env pi ci ch w hp ht mode r0 r1 resp hk hs0 hs1 h0 h1 hg]
    simp only [walkResponse, hc, hcc]
    rw [processParts_image]
    rfl
  · intro s b hb
    simp [partImage, inlineBytes, hb]

/-- C3 witness: the amended statement at the two-payload environment,
where the last successful decode is imgB. -/
theorem c3_last_image_witness :
    (swap_clothing envTwo (some imgP) (some imgC) 38 32 40 68 ("2D Image")).image =
      lastDecodedImage envTwo contentTwo.parts
    ∧ (∀ (s : String) (b : List Nat), envTwo.b64decode s = Except.ok b →
        partImage envTwo { text := none, inline_data := some (.b64 s) } =
        partImage envTwo { text := none, inline_data := some (.raw b) }) :=
  c3_last_image envTwo imgP imgC 38 32 40 68 ("2D Image") refP refC respTwo
    ⟨some contentTwo⟩ [] contentTwo (by decide) rfl rfl rfl rfl rfl rfl rfl

/-- C4: when the first candidate consists of one text part followed by
one inline-image part whose bytes open as the image img (so img has the
pixel dimensions of the PNG payload), the call returns exactly that
image together with the text of the text part followed by a single
trailing newline. -/
theorem c4_text_and_image (env : Env) (pi ci : Img) (ch w hp ht : Nat)
    (mode : String) (r0 r1 : FileRef) (resp : Response) (cand : Candidate)
    (rest : List Candidate) (t : String) (png : List Nat) (img : Img)
    (hk : ¬env.apiKey = "")
    (hs0 : env.saveResult 0 = Except.ok ())
    (hs1 : env.saveResult 1 = Except.ok ())
    (h0 : env.uploadResult 0 = Except.ok r0)
    (h1 : env.uploadResult 1 = Except.ok r1)
    (hg : env.generateResult = Except.ok resp)
    (hc : resp.candidates = cand :: rest)
    (hcc : cand.content =
      some ⟨[{ text := some t }, { inline_data := some (.raw png) }]⟩)
    (hopen : env.imgOpen png = Except.ok img) :
    (swap_clothing env (some pi) (some ci) ch w hp ht mode).image = some img
    ∧ (swap_clothing env (some pi) (some ci) ch w hp ht mode).text = t ++ "\n" := by
  rw [swap_clothing_gen env pi ci ch w hp ht mode r0 r1 resp hk hs0 hs1 h0 h1 hg]
  simp only [walkResponse, hc, hcc]
  simp [processParts, processPart, inlineBytes, hopen, initialWalk]

/-- Response for the C4 witness: one text part, then one raw PNG
payload of bytes `[1]`. -/
def respC4 : Response :=
  ⟨[⟨some ⟨[{ text := some ("Here is your try-on result.") },
            { inline_data := some (.raw [1]) }]⟩⟩]⟩

def envC4 : Env := { envBase with generateResult := Except.ok respC4 }

/-- C4 witness: concrete text-plus-image response; bytes `[1]` open as
imgA. -/
theorem c4_text_and_image_witness :
    (swap_clothing envC4 (some imgP) (some imgC) 38 32 40 68 ("2D Image")).image = some imgA
    ∧ (swap_clothing envC4 (some imgP) (some imgC) 38 32 40 68 ("2D Image")).text =
        ("Here is your try-on result.") ++ "\n" :=
  c4_text_and_image envC4 imgP imgC 38 32 40 68 ("2D Image") refP refC respC4
    ⟨some ⟨[{ text := some ("Here is your try-on result.") },
            { inline_data := some (.raw [1]) }]⟩⟩ []
    ("Here is your try-on result.") [1] imgA
    (by decide) rfl rfl rfl rfl rfl rfl rfl rfl

/-- C5: a part whose inline payload fails to decode (either the byte
extraction or the image open raises) appends an error description to
the accumulated text, leaves the output image unchanged, and the walk
continues with the remaining parts: processing the whole list equals
processing the failed part and then the rest. -/
theorem c5_decode_error_localized (env : Env) (s : WalkState) (p : Part)
    (rest : List Part) (d : InlineData) (e : PyErr)
    (hpt : p.text = none) (hpd : p.inline_data = some d)
    (he : inlineBytes env d = Except.error e ∨
      ∃ b, inlineBytes env d = Except.ok b ∧ env.imgOpen b = Except.error e) :
    processParts env s (p :: rest) = processParts env (processPart env s p) rest
    ∧ (processPart env s p).text =
        s.text ++ "Error processing image: " ++ e.msg ++ "\n"
    ∧ (processPart env s p).image = s.image := by
  refine ⟨rfl, ?_, ?_⟩
  · rcases he with hib | ⟨b, hib, hio⟩
    · simp [processPart, hpt, hpd, hib]
    · simp [processPart, hpt, hpd, hib, hio]
  · rcases he with hib | ⟨b, hib, hio⟩
    · simp [processPart, hpt, hpd, hib]
    · simp [processPart, hpt, hpd, hib, hio]

/-- Part whose payload bytes `[9]` fail to open under envBase. -/
def pFail : Part := { inline_data := some (.raw [9]) }

/-- Rest of the parts after the failing one, for the C5 witness. -/
def restC5 : List Part := [{ text := some ("all done") }]

/-- C5 witness: the failing part at a concrete state and environment. -/
theorem c5_decode_error_localized_witness :
    processParts envBase initialWalk (pFail :: restC5) =
      processParts envBase (processPart envBase initialWalk pFail) restC5
    ∧ (processPart envBase initialWalk pFail).text =
        initialWalk.text ++ "Error processing image: " ++ errOpen.msg ++ "\n"
    ∧ (processPart envBase initialWalk pFail).image = initialWalk.image :=
  c5_decode_error_localized envBase initialWalk pFail restC5 (.raw [9]) errOpen
    rfl rfl (Or.inr ⟨[9], rfl, rfl⟩)

/-! ## Prompt containment -/

theorem buildPrompt_2d (ch w hp ht : Nat) :
    buildPrompt ch w hp ht ("2D Image") = promptBase ch w hp ht ("2D Image") := by
  simp [buildPrompt]

theorem buildPrompt_3d (ch w hp ht : Nat) :
    buildPrompt ch w hp ht ("3D Model") =
      promptBase ch w hp ht ("3D Model") ++ clause3D := by
  simp [buildPrompt]

theorem strContains_append_left (s t u : String) (h : strContains s u) :
    strContains (s ++ t) u := by
  obtain ⟨a, b, hab⟩ := h
  refine ⟨a, b ++ t.data, ?_⟩
  rw [String.data_append, ← hab]
  simp [List.append_assoc]

theorem promptBase_contains_chest (ch w hp ht : Nat) (mode : String) :
    strContains (promptBase ch w hp ht mode) (Nat.repr ch ++ inchesLit) := by
  refine strContains_of_eq _ _ promptHead.data
    ((afterChest ++ Nat.repr w ++ inchesLit ++ afterWaist ++ Nat.repr hp ++ inchesLit
      ++ afterHips ++ Nat.repr ht ++ inchesLit ++ afterHeight ++ mode ++ promptTail).data) ?_
  simp [promptBase, String.data_append, List.append_assoc]

theorem promptBase_contains_waist (ch w hp ht : Nat) (mode : String) :
    strContains (promptBase ch w hp ht mode) (Nat.repr w ++ inchesLit) := by
  refine strContains_of_eq _ _
    ((promptHead ++ Nat.repr ch ++ inchesLit ++ afterChest).data)
    ((afterWaist ++ Nat.repr hp ++ inchesLit ++ afterHips ++ Nat.repr ht ++ inchesLit
      ++ afterHeight ++ mode ++ promptTail).data) ?_
  simp [promptBase, String.data_append, List.append_assoc]

theorem promptBase_contains_hips (ch w hp ht : Nat) (mode : String) :
    strContains (promptBase ch w hp ht mode) (Nat.repr hp ++ inchesLit) := by
  refine strContains_of_eq _ _
    ((promptHead ++ Nat.repr ch ++ inchesLit ++ afterChest ++ Nat.repr w ++ inchesLit
      ++ afterWaist).data)
    ((afterHips ++ Nat.repr ht ++ inchesLit ++ afterHeight ++ mode ++ promptTail).data) ?_
  simp [promptBase, String.data_append, List.append_assoc]

theorem promptBase_contains_height (ch w hp ht : Nat) (mode : String) :
    strContains (promptBase ch w hp ht mode) (Nat.repr ht ++ inchesLit) := by
  refine strContains_of_eq _ _
    ((promptHead ++ Nat.repr ch ++ inchesLit ++ afterChest ++ Nat.repr w ++ inchesLit
      ++ afterWaist ++ Nat.repr hp ++ inchesLit ++ afterHips).data)
    ((afterHeight ++ mode ++ promptTail).data) ?_
  simp [promptBase, String.data_append, List.append_assoc]

/-- C8: for every measurement tuple within the UI bounds and either
output mode, the prompt contains the substring rendering each value
followed by a space and the word inches. -/
theorem c8_prompt_measurements (ch w hp ht : Nat) (mode : String)
    (hch1 : 20 ≤ ch) (hch2 : ch ≤ 60)
    (hw1 : 20 ≤ w) (hw2 : w ≤ 60)
    (hhp1 : 20 ≤ hp) (hhp2 : hp ≤ 60)
    (hht1 : 50 ≤ ht) (hht2 : ht ≤ 84)
    (hm : mode = ("2D Image") ∨ mode = ("3D Model")) :
    strContains (buildPrompt ch w hp ht mode) (Nat.repr ch ++ inchesLit)
    ∧ strContains (buildPrompt ch w hp ht mode) (Nat.repr w ++ inchesLit)
    ∧ strContains (buildPrompt ch w hp ht mode) (Nat.repr hp ++ inchesLit)
    ∧ strContains (buildPrompt ch w hp ht mode) (Nat.repr ht ++ inchesLit) := by
  rcases hm with rfl | rfl
  · rw [buildPrompt_2d]
    exact ⟨promptBase_contains_chest ch w hp ht _,
      promptBase_contains_waist ch w hp ht _,
      promptBase_contains_hips ch w hp ht _,
      promptBase_contains_height ch w hp ht _⟩
  · rw [buildPrompt_3d]
    exact ⟨strContains_append_left _ _ _ (promptBase_contains_chest ch w hp ht _),
      strContains_append_left _ _ _ (promptBase_contains_waist ch w hp ht _),
      strContains_append_left _ _ _ (promptBase_contains_hips ch w hp ht _),
      strContains_append_left _ _ _ (promptBase_contains_height ch w hp ht _)⟩

/-- C8 witness: the default UI measurements in 2D mode. -/
theorem c8_prompt_measurements_witness :
    strContains (buildPrompt 38 32 40 68 ("2D Image")) (Nat.repr 38 ++ inchesLit)
    ∧ strContains (buildPrompt 38 32 40 68 ("2D Image")) (Nat.repr 32 ++ inchesLit)
    ∧ strContains (buildPrompt 38 32 40 68 ("2D Image")) (Nat.repr 40 ++ inchesLit)
    ∧ strContains (buildPrompt 38 32 40 68 ("2D Image")) (Nat.repr 68 ++ inchesLit) :=
  c8_prompt_measurements 38 32 40 68 ("2D Image")
    (by decide) (by decide) (by decide) (by decide) (by decide) (by decide)
    (by decide) (by decide) (Or.inl rfl)

/-- Every character of the prompt base comes from one of its literal
pieces, from a decimal digit, or from the mode string. -/
theorem mem_promptBase (c : Char) (ch w hp ht : Nat) (mode : String)
    (h : c ∈ (promptBase ch w hp ht mode).data) :
    c ∈ promptHead.data ∨ c ∈ digitChars ∨ c ∈ inchesLit.data ∨ c ∈ afterChest.data
    ∨ c ∈ afterWaist.data ∨ c ∈ afterHips.data ∨ c ∈ afterHeight.data
    ∨ c ∈ mode.data ∨ c ∈ promptTail.data := by
  have hr1 := repr_mem_digits ch c
  have hr2 := repr_mem_digits w c
  have hr3 := repr_mem_digits hp c
  have hr4 := repr_mem_digits ht c
  simp only [promptBase, String.data_append, List.mem_append] at h
  rcases h with
    (((((((((((((h | h) | h) | h) | h) | h) | h) | h) | h) | h) | h) | h) | h) | h) | h
  all_goals first
    | exact Or.inl h
    | exact Or.inr (Or.inl (hr1 h))
    | exact Or.inr (Or.inl (hr2 h))
    | exact Or.inr (Or.inl (hr3 h))
    | exact Or.inr (Or.inl (hr4 h))
    | exact Or.inr (Or.inr (Or.inl h))
    | exact Or.inr (Or.inr (Or.inr (Or.inl h)))
    | exact Or.inr (Or.inr (Or.inr (Or.inr (Or.inl h))))
    | exact Or.inr (Or.inr (Or.inr (Or.inr (Or.inr (Or.inl h)))))
    | exact Or.inr (Or.inr (Or.inr (Or.inr (Or.inr (Or.inr (Or.inl h))))))
    | exact Or.inr (Or.inr (Or.inr (Or.inr (Or.inr (Or.inr (Or.inr (Or.inl h)))))))
    | exact Or.inr (Or.inr (Or.inr (Or.inr (Or.inr (Or.inr (Or.inr (Or.inr h)))))))

/-- C9: for every measurement tuple the prompt contains the 3D
rendering clause exactly when the mode is 3D Model: it is present in 3D
mode and absent in 2D mode. -/
theorem c9_prompt_mode_clause (ch w hp ht : Nat) :
    strContains (buildPrompt ch w hp ht ("3D Model")) clause3D
    ∧ ¬strContains (buildPrompt ch w hp ht ("2D Image")) clause3D := by
  constructor
  · rw [buildPrompt_3d]
    refine strContains_of_eq _ _ (promptBase ch w hp ht ("3D Model")).data [] ?_
    simp [String.data_append]
  · intro hcon
    obtain ⟨a, b, hab⟩ := hcon
    have hq : ('q') ∈ (buildPrompt ch w hp ht ("2D Image")).data := by
      rw [← hab]
      refine List.mem_append.2 (Or.inl ?_)
      exact List.mem_append.2 (Or.inr (by decide))
    rw [buildPrompt_2d] at hq
    rcases mem_promptBase ('q') ch w hp ht ("2D Image") hq with
      h | h | h | h | h | h | h | h | h <;> revert h <;> decide

/-! ## Only the first candidate matters -/

theorem inlineBytes_congr (env env' : Env)
    (hb : env.b64decode = env'.b64decode) :
    inlineBytes env = inlineBytes env' := by
  funext d
  cases d with
  | raw b => rfl
  | b64 s => simp [inlineBytes, hb]

theorem processPart_congr (env env' : Env)
    (hb : env.b64decode = env'.b64decode) (hi : env.imgOpen = env'.imgOpen)
    (s : WalkState) (p : Part) :
    processPart env s p = processPart env' s p := by
  unfold processPart
  rw [inlineBytes_congr env env' hb, hi]

theorem processParts_congr (env env' : Env)
    (hb : env.b64decode = env'.b64decode) (hi : env.imgOpen = env'.imgOpen)
    (ps : List Part) : ∀ (s : WalkState),
    processParts env s ps = processParts env' s ps := by
  induction ps with
  | nil => intro s; rfl
  | cons p ps ih =>
    intro s
    rw [processParts_cons, processParts_cons, processPart_congr env env' hb hi, ih]

/-- Walking a response only looks at the first candidate: a response
holding just that candidate walks identically, in any environment that
decodes the same way. -/
theorem walkResponse_first (env env' : Env)
    (hb : env.b64decode = env'.b64decode) (hi : env.imgOpen = env'.imgOpen)
    (resp resp' : Response) (cand : Candidate) (rest : List Candidate)
    (hc : resp.candidates = cand :: rest) (hc' : resp'.candidates = [cand]) :
    walkResponse env resp = walkResponse env' resp' := by
  simp only [walkResponse, hc, hc']
  cases hcc : cand.content with
  | none => rfl
  | some content => exact processParts_congr env env' hb hi content.parts initialWalk

/-- C10: only the first candidate is examined: replacing the response by
one holding just its first candidate leaves the entire result of
swap_clothing unchanged (image, text, files, and network trace), whatever
the other candidates contain and even when the first candidate yields no
image. -/
theorem c10_first_candidate_only (env : Env) (person clothing : Option Img)
    (ch w hp ht : Nat) (mode : String) (resp : Response) (cand : Candidate)
    (rest : List Candidate)
    (hg : env.generateResult = Except.ok resp)
    (hc : resp.candidates = cand :: rest) :
    swap_clothing env person clothing ch w hp ht mode =
      swap_clothing { env with generateResult := Except.ok ⟨[cand]⟩ }
        person clothing ch w hp ht mode := by
  cases person with
  | none => cases clothing <;> rfl
  | some pim =>
    cases clothing with
    | none => rfl
    | some cim =>
      by_cases hk : env.apiKey = ""
      · simp only [swap_clothing, if_pos hk]
      · cases hsv0 : env.saveResult 0 with
        | error e => simp only [swap_clothing, if_neg hk, hsv0]
        | ok u0 =>
          cases hsv1 : env.saveResult 1 with
          | error e => simp only [swap_clothing, if_neg hk, hsv0, hsv1]
          | ok u1 =>
            cases h0 : env.uploadResult 0 with
            | error e => simp only [swap_clothing, if_neg hk, hsv0, hsv1, h0]
            | ok r0 =>
              cases h1 : env.uploadResult 1 with
              | error e => simp only [swap_clothing, if_neg hk, hsv0, hsv1, h0, h1]
              | ok r1 =>
                simp only [swap_clothing, if_neg hk, hsv0, hsv1, h0, h1, hg]
                rw [walkResponse_first env
                  { env with generateResult := Except.ok ⟨[cand]⟩ }
                  rfl rfl resp ⟨[cand]⟩ cand rest hc rfl]

/-- Response with two candidates; the second would yield different
output if it were read. -/
def respTwoCand : Response :=
  ⟨[⟨some contentTwo⟩, ⟨some ⟨[{ text := some ("ignored text") }]⟩⟩]⟩

def envTwoCand : Env := { envBase with generateResult := Except.ok respTwoCand }

/-- C10 witness: dropping the second candidate of a concrete two
candidate response leaves the result unchanged. -/
theorem c10_first_candidate_only_witness :
    swap_clothing envTwoCand (some imgP) (some imgC) 38 32 40 68 ("2D Image") =
      swap_clothing { envTwoCand with generateResult := Except.ok ⟨[⟨some contentTwo⟩]⟩ }
        (some imgP) (some imgC) 38 32 40 68 ("2D Image") :=
  c10_first_candidate_only envTwoCand (some imgP) (some imgC) 38 32 40 68 ("2D Image")
    respTwoCand ⟨some contentTwo⟩ [⟨some ⟨[{ text := some ("ignored text") }]⟩⟩] rfl rfl

end VTO
